import Mathlib

/-! Verification of the library-ingestion core of bs-song-manager-egui
(`src/lib.rs`) against its specification.

Modelling conventions (shallow embedding of the Rust source):
* `serde_json::Value` is the inductive `Json`; indexing with a string key on a
  non-object value or a missing key yields `Json.null`, exactly as
  `serde_json`'s `Index` implementation does.
* File contents are modelled at `char` granularity: a byte buffer obtained by
  `read_to_string` followed by `as_bytes` is represented by the `List Char`
  underlying the string (`String.data`).  UTF-8 encoding is injective and
  maps concatenation to concatenation, so equalities and concatenations of
  byte buffers correspond exactly to equalities and concatenations of these
  lists.  A failing `read_to_string` (I/O error or invalid UTF-8) is the
  `none` case of an entry's `content`; the result of `serde_json::from_str`
  on the content is the entry's `parsed` field (the parser itself lives in
  the external `serde_json` crate).
* The SHA-1/hex pipeline of `hash_string` (external `sha1` and `hex` crates)
  is an uninterpreted parameter `digest : List Char → String`, and the
  network exchange `get_id_by_hash` is an uninterpreted parameter
  `resolver : String → String`; every call to `resolver` is recorded in an
  explicit `exchanged` trace so that claims about the number of network
  exchanges can be stated.
* The id cache `HashMap<String, String>` is an association list queried with
  `List.lookup`; `insert` is modelled by `cons`, which is only ever performed
  on a key that is absent from the list.
* `Song::from_path` holds the cache's write lock for the whole
  lookup/resolve/insert step, so the cache operations of concurrent workers
  are serialized; the scan is therefore modelled by running the spawned
  units of work sequentially in spawn order.
* Rust's `slice::sort_by` is a stable sort; any two stable sorts with the
  same total preorder agree extensionally, so it is modelled by
  `List.insertionSort`, which is stable and kernel-evaluable.
-/

namespace BsSongManager

/-- `static CONCURRENT_THREADS_MAX: usize = 16` (src/lib.rs:28). -/
def CONCURRENT_THREADS_MAX : Nat := 16

/-- `static CONCURRENT_THREADS_MIN: usize = 8` (src/lib.rs:29). -/
def CONCURRENT_THREADS_MIN : Nat := 8

/-- `static DEFAULT_ID: &str = "00000"` (src/lib.rs:30), the sentinel id. -/
def DEFAULT_ID : String := "00000"

/-- Model of `serde_json::Value`.  A JSON number is split into the values on
which `as_u64` succeeds (`nat`) and those on which it fails (`numOther`:
negative or fractional numbers). -/
inductive Json where
  | null
  | bool (b : Bool)
  | nat (n : Nat)
  | numOther
  | str (s : String)
  | arr (xs : List Json)
  | obj (fields : List (String × Json))

/-- `value[key]` for a string key: field of an object, `null` when the key is
missing or the value is not an object (serde_json `Index` semantics). -/
def Json.index (v : Json) (k : String) : Json :=
  match v with
  | .obj fields => (fields.lookup k).getD .null
  | _ => .null

/-- `Value::as_str`. -/
def Json.as_str : Json → Option String
  | .str s => some s
  | _ => none

/-- `Value::as_u64`. -/
def Json.as_u64 : Json → Option Nat
  | .nat n => some n
  | _ => none

/-- `Value::as_array`. -/
def Json.as_array : Json → Option (List Json)
  | .arr xs => some xs
  | _ => none

/-- The seven beatmap characteristics (src/lib.rs:127-135). -/
inductive BeatmapCharacteristic where
  | Degree360
  | Degree90
  | Standard
  | NoArrows
  | OneSaber
  | Lawless
  | Lightshow
deriving DecidableEq

/-- Decoding of `_beatmapCharacteristicName` (src/lib.rs:174-183); an unknown
name rejects the containing set. -/
def BeatmapCharacteristic.ofName : String → Option BeatmapCharacteristic
  | "360Degree" => some .Degree360
  | "90Degree" => some .Degree90
  | "Standard" => some .Standard
  | "NoArrows" => some .NoArrows
  | "OneSaber" => some .OneSaber
  | "Lawless" => some .Lawless
  | "Lightshow" => some .Lightshow
  | _ => none

/-- `struct DifficultyBeatmap` (src/lib.rs:151-155). -/
structure DifficultyBeatmap where
  difficulty : String
  difficulty_rank : Nat
  beatmap_filename : String
deriving DecidableEq

/-- `DifficultyBeatmap::new` (src/lib.rs:157-163). -/
def DifficultyBeatmap.new (data : Json) : Option DifficultyBeatmap := do
  let difficulty ← (data.index "_difficulty").as_str
  let difficulty_rank ← (data.index "_difficultyRank").as_u64
  let beatmap_filename ← (data.index "_beatmapFilename").as_str
  pure { difficulty, difficulty_rank, beatmap_filename }

/-- `struct DifficultyBeatmapSet` (src/lib.rs:167-170). -/
structure DifficultyBeatmapSet where
  beatmap_characteristic_name : BeatmapCharacteristic
  difficulty_beatmaps : List DifficultyBeatmap
deriving DecidableEq

/-- `DifficultyBeatmapSet::new` (src/lib.rs:172-191): decode the
characteristic name, then decode every element of `_difficultyBeatmaps`;
any failure rejects the whole set. -/
def DifficultyBeatmapSet.new (data : Json) : Option DifficultyBeatmapSet := do
  let beatmap_characteristic_name ←
    BeatmapCharacteristic.ofName (← (data.index "_beatmapCharacteristicName").as_str)
  let beatmaps ← (data.index "_difficultyBeatmaps").as_array
  let difficulty_beatmaps ← beatmaps.mapM DifficultyBeatmap.new
  pure { beatmap_characteristic_name, difficulty_beatmaps }

/-- `pub struct Song` (src/lib.rs:197-210).  Paths are modelled as strings. -/
structure Song where
  song_folder_path : String
  song_name : String
  song_sub_name : String
  song_author_name : String
  level_author_name : String
  beats_per_minute : Nat
  song_filename : String
  cover_image_filename : String
  difficulty_beatmap_sets : List DifficultyBeatmapSet
  level_hash : String
  level_id : String
deriving DecidableEq

/-- `impl PartialEq for Song` (src/lib.rs:212-216): equality is decided by the
folder path alone. -/
def Song.beq (a b : Song) : Bool :=
  a.song_folder_path == b.song_folder_path

/-- `impl Hash for Song` (src/lib.rs:217-221): only the folder path is fed to
the hasher, so the hash value is `hasher` applied to the path, for any
hasher. -/
def Song.hash_by (hasher : String → Nat) (s : Song) : Nat :=
  hasher s.song_folder_path

/-- ASCII lowercasing of one character, as used by
`eq_ignore_ascii_case`. -/
def char_to_ascii_lower (c : Char) : Char :=
  if 65 ≤ c.toNat ∧ c.toNat ≤ 90 then Char.ofNat (c.toNat + 32) else c

/-- `str::eq_ignore_ascii_case` (used on the entry name at src/lib.rs:238). -/
def eq_ignore_ascii_case (a b : String) : Bool :=
  a.data.map char_to_ascii_lower == b.data.map char_to_ascii_lower

/-- One directory entry of a candidate song folder.  `content` is the result
of opening and fully reading the entry (`none` = open/read failure or the
entry is not a regular readable UTF-8 file); `parsed` is the result of
`serde_json::from_str` on that content. -/
structure FsEntry where
  name : String
  is_file : Bool
  content : Option String
  parsed : Option Json

/-- A candidate song folder: its path and its directory listing
(`none` = `read_dir` failure). -/
structure SongFolder where
  path : String
  entries : Option (List FsEntry)

/-- Opening and reading `song_path/<filename>` (src/lib.rs:270-284):
resolved against the folder's entries; missing entry, directory entry or
unreadable content all fail. -/
def openAndRead (entries : List FsEntry) (filename : String) : Option String :=
  match entries.find? (fun e => e.name == filename) with
  | some e => if e.is_file then e.content else none
  | none => none

/-- The loop of src/lib.rs:237-240: the first directory entry that is a file
and whose name equals `info.dat` up to ASCII case decides the parse. -/
def find_infodat (entries : List FsEntry) : Option FsEntry :=
  entries.find? (fun e => e.is_file && eq_ignore_ascii_case e.name "info.dat")

/-- The inner loop of src/lib.rs:269-286: read every beatmap sub-file of one
set, in declared order, appending each file's bytes to the running hash
buffer; any read failure rejects the song. -/
def read_beatmap_files (entries : List FsEntry) :
    List DifficultyBeatmap → List Char → Option (List Char)
  | [], acc => some acc
  | b :: rest, acc =>
    match openAndRead entries b.beatmap_filename with
    | none => none
    | some buffer => read_beatmap_files entries rest (acc ++ buffer.data)

/-- The outer loop of src/lib.rs:264-288: decode each difficulty set, then
read its beatmap files into the hash buffer, then move to the next set. -/
def process_sets (entries : List FsEntry) :
    List Json → List Char → Option (List DifficultyBeatmapSet × List Char)
  | [], acc => some ([], acc)
  | sj :: rest, acc =>
    match DifficultyBeatmapSet.new sj with
    | none => none
    | some data =>
      match read_beatmap_files entries data.difficulty_beatmaps acc with
      | none => none
      | some acc' =>
        match process_sets entries rest acc' with
        | none => none
        | some (sets, accF) => some (data :: sets, accF)

/-- The cache lookup/resolve step of src/lib.rs:290-300 (the un-poisoned
branch, the only one reachable in a model without panics): under the write
lock, look the hash up; on a miss call the resolver, and insert the result
only when it is not the sentinel.  Returns the id, the new cache, and the
list of hashes for which a resolver exchange was performed. -/
def lookup_or_resolve (resolver : String → String)
    (id_cache : List (String × String)) (level_hash : String) :
    String × List (String × String) × List String :=
  match id_cache.lookup level_hash with
  | some id => (id, id_cache, [])
  | none =>
    let id := resolver level_hash
    if id ≠ DEFAULT_ID then (id, (level_hash, id) :: id_cache, [level_hash])
    else (id, id_cache, [level_hash])

/-- Extraction of the seven required metadata fields (src/lib.rs:308-314);
absence or wrong type of any of them yields `none`. -/
def required_fields (infodat : Json) :
    Option (String × String × String × String × Nat × String × String) := do
  let song_name ← (infodat.index "_songName").as_str
  let song_sub_name ← (infodat.index "_songSubName").as_str
  let song_author_name ← (infodat.index "_songAuthorName").as_str
  let level_author_name ← (infodat.index "_levelAuthorName").as_str
  let beats_per_minute ← (infodat.index "_beatsPerMinute").as_u64
  let song_filename ← (infodat.index "_songFilename").as_str
  let cover_image_filename ← (infodat.index "_coverImageFilename").as_str
  pure (song_name, song_sub_name, song_author_name, level_author_name,
        beats_per_minute, song_filename, cover_image_filename)

/-- `Song::from_path` (src/lib.rs:224-322).  Returns the optional song
together with the updated id cache and the trace of resolver exchanges.
Note the source order: the hash is computed and the id resolved (mutating
the shared cache) *before* the required metadata fields are validated. -/
def Song.from_path (folder : SongFolder) (resolver : String → String)
    (id_cache : List (String × String)) (digest : List Char → String) :
    Option Song × List (String × String) × List String :=
  match folder.entries with
  | none => (none, id_cache, [])
  | some entries =>
    match find_infodat entries with
    | none => (none, id_cache, [])
    | some e =>
      match e.content with
      | none => (none, id_cache, [])
      | some buffer =>
        match e.parsed with
        | none => (none, id_cache, [])
        | some infodat =>
          match (infodat.index "_difficultyBeatmapSets").as_array with
          | none => (none, id_cache, [])
          | some sets_json =>
            match process_sets entries sets_json buffer.data with
            | none => (none, id_cache, [])
            | some (difficulty_beatmap_sets, hash_data) =>
              let level_hash := digest hash_data
              let r := lookup_or_resolve resolver id_cache level_hash
              match required_fields infodat with
              | none => (none, r.2.1, r.2.2)
              | some (song_name, song_sub_name, song_author_name,
                      level_author_name, beats_per_minute, song_filename,
                      cover_image_filename) =>
                (some { song_folder_path := folder.path, song_name,
                        song_sub_name, song_author_name, level_author_name,
                        beats_per_minute, song_filename, cover_image_filename,
                        difficulty_beatmap_sets, level_hash,
                        level_id := r.1 },
                 r.2.1, r.2.2)

/-- The set of characters forbidden in a canonical folder name, i.e. the
regex character class of src/lib.rs:357.  (Character codes 34, 123 and 125
are the double quote and the two curly braces.) -/
def forbidden_char (c : Char) : Bool :=
  c = '~' || c = '#' || c = Char.ofNat 34 || c = '%' || c = '&' || c = '*' ||
  c = ':' || c = '<' || c = '>' || c = '?' || c = '/' || c = '\\' ||
  c = Char.ofNat 123 || c = '|' || c = Char.ofNat 125

/-- `Regex::replace_all` with a `[...]+` character-class pattern and
replacement `_`: every maximal run of forbidden characters becomes a single
underscore.  The flag records whether the previous character was part of a
run. -/
def replace_forbidden_runs : List Char → Bool → List Char
  | [], _ => []
  | c :: rest, in_run =>
    if forbidden_char c then
      if in_run then replace_forbidden_runs rest true
      else '_' :: replace_forbidden_runs rest true
    else c :: replace_forbidden_runs rest false

/-- `Song::get_canonical_name` (src/lib.rs:354-364).  `translit` is the
external `deunicode` transliteration (identity on printable ASCII). -/
def Song.get_canonical_name (translit : String → String) (s : Song) : String :=
  let name := translit s.song_name
  let author := translit s.level_author_name
  String.mk (replace_forbidden_runs
    (s.level_id ++ " (" ++ name ++ " - " ++ author ++ ")").data false)

/-- The dispatch loop of src/lib.rs:439-449, as a pure schedule.  `pending`
is `task_pending.len()`.  While `pending < CONCURRENT_THREADS_MAX` the task
is spawned (first output); otherwise the loop joins pending tasks down to
`CONCURRENT_THREADS_MIN` — and the current task, already moved into the loop
variable, is discarded without ever being spawned (second output). -/
def pool_step {α : Type} (pending : Nat) : List α → List α × List α
  | [] => ([], [])
  | t :: rest =>
    if pending < CONCURRENT_THREADS_MAX then
      let r := pool_step (pending + 1) rest
      (t :: r.1, r.2)
    else
      let r := pool_step CONCURRENT_THREADS_MIN rest
      (r.1, t :: r.2)

/-- The tasks actually spawned (and hence executed and awaited) by the
dispatch loop, and the tasks it silently discards. -/
def pool_schedule {α : Type} (tasks : List α) : List α × List α :=
  pool_step 0 tasks

/-- The unit of work of src/lib.rs:415-428 run for each spawned folder, in
spawn order (cache accesses serialize on the write lock): a parsed song goes
to the song list, a failed folder's path to the invalid set.  Returns
(songs, invalid paths, final cache, exchange trace). -/
def run_tasks (resolver : String → String) (digest : List Char → String) :
    List SongFolder → List (String × String) →
    List Song × List String × List (String × String) × List String
  | [], id_cache => ([], [], id_cache, [])
  | f :: rest, id_cache =>
    let r := Song.from_path f resolver id_cache digest
    let rs := run_tasks resolver digest rest r.2.1
    match r.1 with
    | some s => (s :: rs.1, rs.2.1, rs.2.2.1, r.2.2 ++ rs.2.2.2)
    | none => (rs.1, f.path :: rs.2.1, rs.2.2.1, r.2.2 ++ rs.2.2.2)

/-- Lexicographic comparison of character lists.  Rust's `String::cmp`
compares the UTF-8 bytes lexicographically, which coincides with
codepoint-lexicographic comparison of the characters. -/
def chars_le : List Char → List Char → Bool
  | [], _ => true
  | _ :: _, [] => false
  | c :: cs, d :: ds =>
    if c < d then true
    else if d < c then false
    else chars_le cs ds

/-- The `a.cmp(b) ≤ Equal` ordering used by `sort_by` at src/lib.rs:457. -/
def string_le (a b : String) : Bool :=
  chars_le a.data b.data

/-- One immediate entry of the scanned root: a sub-directory (a candidate
song folder) or a non-directory entry with its file name. -/
inductive RootEntry where
  | dir (folder : SongFolder)
  | file (name : String)

/-- Result of a scan: the sorted song list and the rejected paths (the
return value of `generate_song_list`), plus the cache as persisted to
`id.cache` and the trace of resolver exchanges. -/
structure ScanResult where
  songs : List Song
  invalid : List String
  saved_cache : List (String × String)
  exchanged : List String

/-- `generate_song_list` (src/lib.rs:367-472).  `root` is the result of
`read_dir` on the scanned root (`none` = listing failure, which returns the
empty pair before the cache is loaded or saved, leaving the cache file
unchanged); `cache0` is the cache loaded from `id.cache` (load failure gives
`[]`).  Non-directory entries other than `id.cache` are rejected
immediately; directory entries become tasks, of which only the ones admitted
by the pool are run; the collected songs are stably sorted by name. -/
def generate_song_list (resolver : String → String) (digest : List Char → String)
    (root : Option (List RootEntry)) (cache0 : List (String × String)) :
    ScanResult :=
  match root with
  | none => ⟨[], [], cache0, []⟩
  | some entries =>
    let dirs := entries.filterMap (fun e => match e with
      | .dir f => some f
      | .file _ => none)
    let invalid0 := entries.filterMap (fun e => match e with
      | .dir _ => none
      | .file n => if n == "id.cache" then none else some n)
    let executed := (pool_schedule dirs).1
    let r := run_tasks resolver digest executed cache0
    ⟨r.1.insertionSort (fun a b => string_le a.song_name b.song_name = true),
     invalid0 ++ r.2.1, r.2.2.1, r.2.2.2⟩

/-- Modelled from the spec (§3, §4.1 step 5): the content-hash input is the
declaration file's bytes concatenated with the bytes of every referenced
sub-file, outer set order as declared, inner beatmap order as declared.
The decoding of the declared sets. -/
def sets_of : List Json → Option (List DifficultyBeatmapSet)
  | [] => some []
  | sj :: rest =>
    match DifficultyBeatmapSet.new sj, sets_of rest with
    | some s, some r => some (s :: r)
    | _, _ => none

/-- The referenced sub-file names of the declared sets, in declared nested
order. -/
def set_filenames (sets : List DifficultyBeatmapSet) : List String :=
  (sets.map (fun s => s.difficulty_beatmaps.map (fun b => b.beatmap_filename))).flatten

/-- Reading a list of sub-files in order; any failure fails the whole
read. -/
def read_all (entries : List FsEntry) : List String → Option (List String)
  | [] => some []
  | n :: rest =>
    match openAndRead entries n, read_all entries rest with
    | some c, some cs => some (c :: cs)
    | _, _ => none

/-- Concatenation of the file contents, as bytes. -/
def bytes_of_files (cs : List String) : List Char :=
  (cs.map String.data).flatten

/-- Modelled from the spec (§3, §4.1 step 5): the byte stream the content
hash is computed over — the declaration file's bytes followed by every
referenced beatmap sub-file's bytes, outer difficulty-set order as declared,
inner beatmap order as declared. -/
def spec_hash_input (folder : SongFolder) : Option (List Char) := do
  let entries ← folder.entries
  let e ← find_infodat entries
  let buffer ← e.content
  let infodat ← e.parsed
  let sets_json ← (infodat.index "_difficultyBeatmapSets").as_array
  let sets ← sets_of sets_json
  let contents ← read_all entries (set_filenames sets)
  pure (buffer.data ++ bytes_of_files contents)

/-- A song record used to exhibit path-only identity: same folder path as
`song_by_path_b`, all other fields different. -/
def song_by_path_a : Song :=
  { song_folder_path := "/bs/CustomLevels/a", song_name := "One",
    song_sub_name := "sub", song_author_name := "auth",
    level_author_name := "lvl", beats_per_minute := 100,
    song_filename := "one.egg", cover_image_filename := "one.jpg",
    difficulty_beatmap_sets := [], level_hash := "aaaa", level_id := "11111" }

/-- A song record agreeing with `song_by_path_a` only on the folder path. -/
def song_by_path_b : Song :=
  { song_folder_path := "/bs/CustomLevels/a", song_name := "Two",
    song_sub_name := "other", song_author_name := "x",
    level_author_name := "y", beats_per_minute := 200,
    song_filename := "two.egg", cover_image_filename := "two.jpg",
    difficulty_beatmap_sets :=
      [{ beatmap_characteristic_name := .Standard, difficulty_beatmaps := [] }],
    level_hash := "bbbb", level_id := "22222" }

/-- The song of the spec's canonical-rename example (§8): id `1a2b3`, name
`Test: Song?`, level author `Au/Th`. -/
def rename_example_song : Song :=
  { song_folder_path := "/bs/CustomLevels/t", song_name := "Test: Song?",
    song_sub_name := "", song_author_name := "A",
    level_author_name := "Au/Th", beats_per_minute := 120,
    song_filename := "song.egg", cover_image_filename := "cover.jpg",
    difficulty_beatmap_sets := [], level_hash := "cafe", level_id := "1a2b3" }

/-- A candidate folder with an empty (but listable) directory: it has no
declaration file, so the parser rejects it. -/
def empty_folder (p : String) : SongFolder :=
  { path := p, entries := some [] }

/-- A root whose 17 immediate entries are all empty directories — one more
than the pool's high-water mark. -/
def invalid_root_17 : List RootEntry :=
  (List.range 17).map (fun i => .dir (empty_folder ("/bs/f" ++ toString i)))

/-- A folder whose declaration parses and has a valid (empty) set array but
lacks the required `_songName` field. -/
def missing_name_folder : SongFolder :=
  { path := "/bs/noname",
    entries := some [
      { name := "info.dat", is_file := true, content := some "INFO",
        parsed := some (.obj [("_difficultyBeatmapSets", .arr [])]) }] }

/-- A fully valid candidate folder with the given path and display name and
an empty difficulty-set array. -/
def valid_folder (p name : String) : SongFolder :=
  { path := p,
    entries := some [
      { name := "info.dat", is_file := true, content := some name,
        parsed := some (.obj [
          ("_songName", .str name), ("_songSubName", .str ""),
          ("_songAuthorName", .str "a"), ("_levelAuthorName", .str "l"),
          ("_beatsPerMinute", .nat 120), ("_songFilename", .str "s.egg"),
          ("_coverImageFilename", .str "c.jpg"),
          ("_difficultyBeatmapSets", .arr [])]) }] }

/-- C1: the claim says every immediate directory entry of a listable root has
its unit of work executed and awaited, also when the number of directories
exceeds the high-water mark 16.  The dispatch loop of src/lib.rs:439-449
violates this: when `task_pending` is full, the `else` branch joins threads
down to the low-water mark but never spawns the task that was just taken
from `task_list` — the closure is dropped.  At the failing input of 17
tasks, only the first 16 are ever spawned and task 16 (0-based) is silently
discarded, so its folder can appear in neither output of the scan. -/
theorem pool_drops_seventeenth_task :
    (pool_schedule (List.range 17)).1 = List.range 16 ∧
    (pool_schedule (List.range 17)).2 = [16] := by
  constructor <;> rfl

/-- C2: on a cache miss exactly one resolver exchange is performed (the
exchange trace is precisely `[h]`); a non-sentinel result is returned with
the pair `(h, id)` inserted into the cache, and the sentinel result is
returned with the cache unchanged, the hash never being inserted. -/
theorem cache_miss_single_exchange (resolver : String → String)
    (id_cache : List (String × String)) (h : String)
    (hmiss : id_cache.lookup h = none) :
    (lookup_or_resolve resolver id_cache h).2.2 = [h] ∧
    (resolver h ≠ DEFAULT_ID →
      lookup_or_resolve resolver id_cache h =
        (resolver h, (h, resolver h) :: id_cache, [h])) ∧
    (resolver h = DEFAULT_ID →
      lookup_or_resolve resolver id_cache h = (DEFAULT_ID, id_cache, [h])) := by
  unfold lookup_or_resolve
  rw [hmiss]
  by_cases hid : resolver h = DEFAULT_ID
  · simp [hid]
  · simp [hid]

/-- Witness for C2: a miss on an empty cache with a resolver answering
`abc12` performs one exchange and caches the pair. -/
theorem cache_miss_single_exchange_witness :
    lookup_or_resolve (fun _ => "abc12") [] "h1" =
      ("abc12", [("h1", "abc12")], ["h1"]) := by
  have h := cache_miss_single_exchange (fun _ => "abc12") [] "h1" rfl
  exact h.2.1 (by decide)

/-- C4: a lookup of a hash already present in the cache returns the cached
id, performs no resolver exchange (empty exchange trace) and leaves the
cache unchanged. -/
theorem cache_hit_no_exchange (resolver : String → String)
    (id_cache : List (String × String)) (h id : String)
    (hhit : id_cache.lookup h = some id) :
    lookup_or_resolve resolver id_cache h = (id, id_cache, []) := by
  unfold lookup_or_resolve
  rw [hhit]

/-- Witness for C4: a hit on a one-entry cache. -/
theorem cache_hit_no_exchange_witness :
    lookup_or_resolve (fun _ => "zzzzz") [("h1", "abc12")] "h1" =
      ("abc12", [("h1", "abc12")], []) := by
  exact cache_hit_no_exchange (fun _ => "zzzzz") [("h1", "abc12")] "h1" "abc12" rfl

/-- C9: two `Song` records are equal (under the `PartialEq` model) exactly
when their folder paths are equal, regardless of every other field, and
equal songs produce equal hash values under every hasher. -/
theorem song_identity_by_path (a b : Song) :
    (Song.beq a b = true ↔ a.song_folder_path = b.song_folder_path) ∧
    (Song.beq a b = true →
      ∀ hasher : String → Nat, Song.hash_by hasher a = Song.hash_by hasher b) := by
  constructor
  · simp [Song.beq]
  · intro hb hasher
    simp [Song.beq] at hb
    simp [Song.hash_by, hb]

/-- Witness for C9: two records sharing only the folder path are equal and
hash alike (here under the length hasher). -/
theorem song_identity_by_path_witness :
    Song.beq song_by_path_a song_by_path_b = true ∧
    Song.hash_by String.length song_by_path_a =
      Song.hash_by String.length song_by_path_b := by
  have h := song_identity_by_path song_by_path_a song_by_path_b
  exact ⟨h.1.mpr rfl, h.2 (h.1.mpr rfl) String.length⟩

/-- C6: the canonical rename name transliterates the display name and the
level-author name, formats `id (name - author)` and collapses every run of
forbidden characters to a single underscore; on the spec's example song
(id `1a2b3`, name `Test: Song?`, author `Au/Th`, all printable ASCII, on
which the `deunicode` transliteration is the identity) it yields exactly
`1a2b3 (Test_ Song_ - Au_Th)`. -/
theorem canonical_name_example :
    Song.get_canonical_name (fun s => s) rename_example_song =
      "1a2b3 (Test_ Song_ - Au_Th)" := by
  rfl

/-- C5: the claim says every candidate folder without a declaration file (or
with a missing/mistyped required field) is rejected by the parser and its
path appears in the scan's rejected set.  The parser half holds, but the
dispatch loop of src/lib.rs:439-449 drops the seventeenth unit of work, so
at the failing input — a root of 17 empty directories — folder `/bs/f16` is
rejected by the parser yet appears in neither the song list nor the
rejected set: the scan returns only 16 rejected paths. -/
theorem scan_loses_seventeenth_rejected_folder :
    (Song.from_path (empty_folder "/bs/f16") (fun _ => "00000") []
        (fun _ => "d")).1 = none ∧
    (generate_song_list (fun _ => "00000") (fun _ => "d")
        (some invalid_root_17) []).songs = [] ∧
    (generate_song_list (fun _ => "00000") (fun _ => "d")
        (some invalid_root_17) []).invalid.length = 16 ∧
    "/bs/f15" ∈ (generate_song_list (fun _ => "00000") (fun _ => "d")
        (some invalid_root_17) []).invalid ∧
    "/bs/f16" ∉ (generate_song_list (fun _ => "00000") (fun _ => "d")
        (some invalid_root_17) []).invalid := by
  refine ⟨rfl, rfl, rfl, by decide, by decide⟩

/-- C10: in `Song::from_path` the content hash is computed and the id
resolved — mutating the shared cache — before the required fields are
validated.  On a folder with a valid set array but no `_songName`, the
parser returns no song, yet one resolver exchange happens and the resolved
pair ends up in the cache that the scan then persists: rejection is not
atomic with respect to the identifier cache. -/
theorem rejection_not_atomic_with_cache :
    Song.from_path missing_name_folder (fun _ => "abc12") []
        (fun _ => "feed") = (none, [("feed", "abc12")], ["feed"]) ∧
    generate_song_list (fun _ => "abc12") (fun _ => "feed")
        (some [.dir missing_name_folder]) [] =
      ⟨[], ["/bs/noname"], [("feed", "abc12")], ["feed"]⟩ := by
  exact ⟨rfl, rfl⟩

/-- C3 (counterexample): the claim promises zero second-scan exchanges for
every song successfully parsed in both of two successive scans.  With a
resolver that answers the sentinel, the single valid folder is parsed
successfully in both scans (a song is produced even when resolution fails),
but the sentinel is never cached, so the persisted cache stays empty and
the second scan — fed exactly the cache saved by the first — performs an
exchange for the very hash already exchanged in the first scan. -/
theorem second_scan_reexchanges_after_sentinel :
    ((generate_song_list (fun _ => "00000") (fun _ => "deadbeef")
        (some [.dir (valid_folder "/bs/v" "Va")]) []).songs.map
          Song.level_hash) = ["deadbeef"] ∧
    (generate_song_list (fun _ => "00000") (fun _ => "deadbeef")
        (some [.dir (valid_folder "/bs/v" "Va")]) []).exchanged =
      ["deadbeef"] ∧
    (generate_song_list (fun _ => "00000") (fun _ => "deadbeef")
        (some [.dir (valid_folder "/bs/v" "Va")]) []).saved_cache = [] ∧
    ((generate_song_list (fun _ => "00000") (fun _ => "deadbeef")
        (some [.dir (valid_folder "/bs/v" "Va")])
        (generate_song_list (fun _ => "00000") (fun _ => "deadbeef")
          (some [.dir (valid_folder "/bs/v" "Va")]) []).saved_cache).songs.map
            Song.level_hash) = ["deadbeef"] ∧
    (generate_song_list (fun _ => "00000") (fun _ => "deadbeef")
        (some [.dir (valid_folder "/bs/v" "Va")])
        (generate_song_list (fun _ => "00000") (fun _ => "deadbeef")
          (some [.dir (valid_folder "/bs/v" "Va")]) []).saved_cache).exchanged =
      ["deadbeef"] := by
  exact ⟨rfl, rfl, rfl, rfl, rfl⟩

/-- One lookup/resolve step keeps every pre-existing cache binding (inserts
only happen for keys that missed) and never records an exchange for a key
already bound. -/
theorem lookup_or_resolve_preserves (resolver : String → String)
    (id_cache : List (String × String)) (h' h i : String)
    (hl : id_cache.lookup h = some i) :
    (lookup_or_resolve resolver id_cache h').2.1.lookup h = some i ∧
    h ∉ (lookup_or_resolve resolver id_cache h').2.2 := by
  unfold lookup_or_resolve
  cases hc : id_cache.lookup h' with
  | some id => simp [hl]
  | none =>
    have hne : h ≠ h' := by
      rintro rfl
      rw [hl] at hc
      cases hc
    have hbe : (h == h') = false := beq_eq_false_iff_ne.mpr hne
    by_cases hid : resolver h' = DEFAULT_ID
    · simp [hid, hl, hne]
    · simp [hid, List.lookup, hbe, hl, hne]

/-- The cache effect of `Song::from_path` is either nothing at all (the
rejecting paths before the hash is computed) or exactly one lookup/resolve
step on the computed hash. -/
theorem from_path_cache_shape (folder : SongFolder) (resolver : String → String)
    (id_cache : List (String × String)) (digest : List Char → String) :
    (Song.from_path folder resolver id_cache digest).2 = (id_cache, []) ∨
    ∃ hsh, (Song.from_path folder resolver id_cache digest).2 =
      (lookup_or_resolve resolver id_cache hsh).2 := by
  simp only [Song.from_path]
  repeat' split
  all_goals first
    | exact Or.inl rfl
    | exact Or.inr ⟨_, rfl⟩

/-- `Song::from_path` keeps every pre-existing cache binding and performs no
exchange for a hash already bound in the cache it is given. -/
theorem from_path_preserves (folder : SongFolder) (resolver : String → String)
    (id_cache : List (String × String)) (digest : List Char → String)
    (h i : String) (hl : id_cache.lookup h = some i) :
    (Song.from_path folder resolver id_cache digest).2.1.lookup h = some i ∧
    h ∉ (Song.from_path folder resolver id_cache digest).2.2 := by
  rcases from_path_cache_shape folder resolver id_cache digest with heq | ⟨hsh, heq⟩
  · rw [heq]
    exact ⟨hl, by simp⟩
  · rw [heq]
    exact lookup_or_resolve_preserves resolver id_cache hsh h i hl

/-- Running any sequence of units of work keeps every binding of the starting
cache and never exchanges for its keys. -/
theorem run_tasks_preserves (resolver : String → String)
    (digest : List Char → String) (fs : List SongFolder) :
    ∀ (id_cache : List (String × String)) (h i : String),
      id_cache.lookup h = some i →
      (run_tasks resolver digest fs id_cache).2.2.1.lookup h = some i ∧
      h ∉ (run_tasks resolver digest fs id_cache).2.2.2 := by
  induction fs with
  | nil =>
    intro c h i hl
    simpa [run_tasks] using hl
  | cons f rest ih =>
    intro c h i hl
    have h1 := from_path_preserves f resolver c digest h i hl
    have h2 := ih ((Song.from_path f resolver c digest).2.1) h i h1.1
    simp only [run_tasks]
    split
    · refine ⟨h2.1, ?_⟩
      intro hmem
      rcases List.mem_append.mp hmem with hm | hm
      exacts [h1.2 hm, h2.2 hm]
    · refine ⟨h2.1, ?_⟩
      intro hmem
      rcases List.mem_append.mp hmem with hm | hm
      exacts [h1.2 hm, h2.2 hm]

/-- A whole scan keeps every binding of the cache it loaded and performs no
exchange for any hash bound in it. -/
theorem scan_preserves_cache_bindings (resolver : String → String)
    (digest : List Char → String) (root : Option (List RootEntry))
    (cache0 : List (String × String)) (h i : String)
    (hl : cache0.lookup h = some i) :
    (generate_song_list resolver digest root cache0).saved_cache.lookup h =
      some i ∧
    h ∉ (generate_song_list resolver digest root cache0).exchanged := by
  cases root with
  | none => exact ⟨hl, by simp [generate_song_list]⟩
  | some entries =>
    simp only [generate_song_list]
    exact run_tasks_preserves resolver digest _ cache0 h i hl

/-- C3 (amended): a second scan fed the cache persisted by a first scan
performs zero resolver exchanges for every hash the first scan saved — that
is, for every hash whose resolution returned a non-sentinel id.  (The
original claim fails for songs whose resolution returned the sentinel: they
parse successfully but are deliberately left uncached, see the
counterexample.) -/
theorem cache_hit_across_scans (resolver : String → String)
    (digest : List Char → String) (root1 root2 : Option (List RootEntry))
    (cache0 : List (String × String)) (h i : String)
    (hsaved : (generate_song_list resolver digest root1 cache0).saved_cache.lookup
        h = some i) :
    h ∉ (generate_song_list resolver digest root2
          (generate_song_list resolver digest root1 cache0).saved_cache).exchanged :=
  (scan_preserves_cache_bindings resolver digest root2
    (generate_song_list resolver digest root1 cache0).saved_cache h i hsaved).2

/-- Witness for the amended C3: with a resolver that answers `abc12`, the
first scan of the one-folder root saves the binding for hash `deadbeef`,
and the second scan over the persisted cache performs no exchange for it. -/
theorem cache_hit_across_scans_witness :
    "deadbeef" ∉ (generate_song_list (fun _ => "abc12") (fun _ => "deadbeef")
        (some [.dir (valid_folder "/bs/v" "Va")])
        (generate_song_list (fun _ => "abc12") (fun _ => "deadbeef")
          (some [.dir (valid_folder "/bs/v" "Va")]) []).saved_cache).exchanged := by
  exact cache_hit_across_scans (fun _ => "abc12") (fun _ => "deadbeef")
    (some [.dir (valid_folder "/bs/v" "Va")])
    (some [.dir (valid_folder "/bs/v" "Va")]) [] "deadbeef" "abc12" rfl

/-- Reading a concatenated list of sub-file names reads both halves and
concatenates, failing if either half fails. -/
theorem read_all_append (entries : List FsEntry) (ns1 ns2 : List String) :
    read_all entries (ns1 ++ ns2) =
      match read_all entries ns1, read_all entries ns2 with
      | some a, some b => some (a ++ b)
      | _, _ => none := by
  induction ns1 with
  | nil =>
    cases h2 : read_all entries ns2 with
    | none => simp [read_all, h2]
    | some b => simp [read_all, h2]
  | cons n rest ih =>
    cases ho : openAndRead entries n with
    | none => simp [read_all, ho]
    | some c =>
      cases hr : read_all entries rest with
      | none => simp [read_all, ho, hr, ih]
      | some a =>
        cases h2 : read_all entries ns2 with
        | none => simp [read_all, ho, hr, h2, ih]
        | some b => simp [read_all, ho, hr, h2, ih]

/-- The file-reading loop over one set's beatmaps equals reading all the
set's referenced files and appending their concatenated bytes to the
accumulator. -/
theorem read_beatmap_files_eq (entries : List FsEntry)
    (bs : List DifficultyBeatmap) :
    ∀ acc : List Char,
      read_beatmap_files entries bs acc =
        (read_all entries (bs.map (fun b => b.beatmap_filename))).map
          (fun cs => acc ++ bytes_of_files cs) := by
  induction bs with
  | nil =>
    intro acc
    simp [read_beatmap_files, read_all, bytes_of_files]
  | cons b rest ih =>
    intro acc
    cases ho : openAndRead entries b.beatmap_filename with
    | none => simp [read_beatmap_files, read_all, ho]
    | some c =>
      cases hr : read_all entries (rest.map (fun b => b.beatmap_filename)) with
      | none => simp [read_beatmap_files, read_all, ho, hr, ih]
      | some cs =>
        simp [read_beatmap_files, read_all, ho, hr, ih, bytes_of_files,
          List.append_assoc]

/-- The referenced file names of a cons of sets are the head set's names
followed by the remaining sets' names. -/
theorem set_filenames_cons (s : DifficultyBeatmapSet)
    (r : List DifficultyBeatmapSet) :
    set_filenames (s :: r) =
      s.difficulty_beatmaps.map (fun b => b.beatmap_filename) ++
        set_filenames r := by
  simp [set_filenames]

/-- The interleaved decode/read loop of the source equals the flat
description: decode all sets, then read every referenced file in declared
nested order and append the concatenated bytes to the accumulator. -/
theorem process_sets_eq (entries : List FsEntry) (sjs : List Json) :
    ∀ acc : List Char,
      process_sets entries sjs acc =
        (sets_of sjs).bind (fun sets =>
          (read_all entries (set_filenames sets)).map
            (fun cs => (sets, acc ++ bytes_of_files cs))) := by
  induction sjs with
  | nil =>
    intro acc
    simp [process_sets, sets_of, set_filenames, read_all, bytes_of_files]
  | cons sj rest ih =>
    intro acc
    cases hn : DifficultyBeatmapSet.new sj with
    | none => simp [process_sets, sets_of, hn]
    | some data =>
      cases hr : read_all entries
          (data.difficulty_beatmaps.map (fun b => b.beatmap_filename)) with
      | none =>
        cases hsr : sets_of rest with
        | none =>
          simp [process_sets, sets_of, hn, hsr, read_beatmap_files_eq, hr]
        | some r =>
          simp [process_sets, sets_of, hn, hsr, read_beatmap_files_eq, hr,
            set_filenames_cons, read_all_append]
      | some cs0 =>
        cases hsr : sets_of rest with
        | none =>
          simp [process_sets, sets_of, hn, hsr, read_beatmap_files_eq, hr, ih]
        | some r =>
          cases h2 : read_all entries (set_filenames r) with
          | none =>
            simp [process_sets, sets_of, hn, hsr, read_beatmap_files_eq, hr,
              h2, ih, set_filenames_cons, read_all_append]
          | some cs2 =>
            simp [process_sets, sets_of, hn, hsr, read_beatmap_files_eq, hr,
              h2, ih, set_filenames_cons, read_all_append, bytes_of_files,
              List.append_assoc]

/-- Inversion of a successful parse: all the intermediate decoding steps
succeeded, and the song's hash is the digest of the accumulated byte
stream. -/
theorem from_path_success_inv (folder : SongFolder) (resolver : String → String)
    (id_cache : List (String × String)) (digest : List Char → String)
    (s : Song) (h : (Song.from_path folder resolver id_cache digest).1 = some s) :
    ∃ entries e buffer infodat sets_json sets hash_data,
      folder.entries = some entries ∧
      find_infodat entries = some e ∧
      e.content = some buffer ∧
      e.parsed = some infodat ∧
      (infodat.index "_difficultyBeatmapSets").as_array = some sets_json ∧
      process_sets entries sets_json buffer.data = some (sets, hash_data) ∧
      s.level_hash = digest hash_data := by
  simp only [Song.from_path] at h
  repeat' split at h
  all_goals first
    | exact ⟨_, _, _, _, _, _, _, by assumption, by assumption, by assumption,
        by assumption, by assumption, by assumption, by rw [← Option.some.inj h]⟩
    | simp at h

/-- A successfully parsed song's `level_hash` is the digest of the
spec-described byte stream of its folder. -/
theorem spec_hash_input_of_success (digest : List Char → String)
    (resolver : String → String) (id_cache : List (String × String))
    (folder : SongFolder) (s : Song)
    (h : (Song.from_path folder resolver id_cache digest).1 = some s) :
    (spec_hash_input folder).map digest = some s.level_hash := by
  obtain ⟨entries, e, buffer, infodat, sets_json, sets, hash_data,
    hent, hfind, hcont, hpars, harr, hps, hlh⟩ :=
    from_path_success_inv folder resolver id_cache digest s h
  rw [process_sets_eq] at hps
  cases hso : sets_of sets_json with
  | none =>
    rw [hso] at hps
    cases hps
  | some sets0 =>
    rw [hso] at hps
    simp only [Option.some_bind] at hps
    cases hra : read_all entries (set_filenames sets0) with
    | none =>
      rw [hra] at hps
      cases hps
    | some cs =>
      rw [hra] at hps
      simp only [Option.map_some'] at hps
      have hinj := Option.some.inj hps
      have hhd : hash_data = buffer.data ++ bytes_of_files cs :=
        (congrArg Prod.snd hinj).symm
      simp [spec_hash_input, hent, hfind, hcont, hpars, harr, hso, hra,
        hlh, hhd]

/-- C7: the content hash of every successfully parsed folder is the digest
(modelling lowercase-hex SHA-1, provided by the external `sha1`/`hex`
crates) of the declaration file's bytes concatenated with every referenced
beatmap sub-file's bytes in declared nested order — the spec-side
`spec_hash_input`; consequently two parses over folders with identical
declaration and sub-file bytes yield the identical hash, regardless of the
resolver, the cache state or the scan in which they run. -/
theorem level_hash_matches_declared_byte_stream :
    (∀ (digest : List Char → String) (resolver : String → String)
        (id_cache : List (String × String)) (folder : SongFolder) (s : Song),
      (Song.from_path folder resolver id_cache digest).1 = some s →
      (spec_hash_input folder).map digest = some s.level_hash) ∧
    (∀ (digest : List Char → String) (r1 r2 : String → String)
        (c1 c2 : List (String × String)) (f1 f2 : SongFolder) (s1 s2 : Song),
      (Song.from_path f1 r1 c1 digest).1 = some s1 →
      (Song.from_path f2 r2 c2 digest).1 = some s2 →
      spec_hash_input f1 = spec_hash_input f2 →
      s1.level_hash = s2.level_hash) := by
  refine ⟨spec_hash_input_of_success, ?_⟩
  intro digest r1 r2 c1 c2 f1 f2 s1 s2 h1 h2 heq
  have a1 := spec_hash_input_of_success digest r1 c1 f1 s1 h1
  have a2 := spec_hash_input_of_success digest r2 c2 f2 s2 h2
  rw [heq] at a1
  rw [a1] at a2
  exact Option.some.inj a2

/-- A concrete valid folder with one Standard set referencing one beatmap
sub-file; the declaration entry is named `Info.dat` to exercise the
case-insensitive match. -/
def hash_demo_folder : SongFolder :=
  { path := "/bs/demo",
    entries := some [
      { name := "Info.dat", is_file := true, content := some "INFO",
        parsed := some (.obj [
          ("_songName", .str "N"), ("_songSubName", .str ""),
          ("_songAuthorName", .str "A"), ("_levelAuthorName", .str "L"),
          ("_beatsPerMinute", .nat 100), ("_songFilename", .str "s.egg"),
          ("_coverImageFilename", .str "c.jpg"),
          ("_difficultyBeatmapSets", .arr [
            .obj [("_beatmapCharacteristicName", .str "Standard"),
                  ("_difficultyBeatmaps", .arr [
                    .obj [("_difficulty", .str "Easy"),
                          ("_difficultyRank", .nat 1),
                          ("_beatmapFilename", .str "Easy.dat")]])]])]) },
      { name := "Easy.dat", is_file := true, content := some "MAP",
        parsed := none }] }

/-- The song `hash_demo_folder` parses to under the identity digest and a
resolver answering the sentinel. -/
def hash_demo_song : Song :=
  { song_folder_path := "/bs/demo", song_name := "N", song_sub_name := "",
    song_author_name := "A", level_author_name := "L",
    beats_per_minute := 100, song_filename := "s.egg",
    cover_image_filename := "c.jpg",
    difficulty_beatmap_sets :=
      [{ beatmap_characteristic_name := .Standard,
         difficulty_beatmaps :=
           [{ difficulty := "Easy", difficulty_rank := 1,
              beatmap_filename := "Easy.dat" }] }],
    level_hash := "INFOMAP", level_id := "00000" }

/-- The same song as parsed in a second scan whose resolver answers `abc12`
over a different starting cache: only the id differs, never the hash. -/
def hash_demo_song_b : Song :=
  { hash_demo_song with level_id := "abc12" }

/-- Witness for C7: on the demo folder with the identity digest, the parsed
hash is the digest of `INFO` followed by `MAP` (declaration bytes, then the
referenced sub-file's bytes), and two parses under different resolvers and
caches agree on the hash. -/
theorem level_hash_matches_declared_byte_stream_witness :
    (spec_hash_input hash_demo_folder).map (fun l => String.mk l) =
      some hash_demo_song.level_hash ∧
    hash_demo_song.level_hash = hash_demo_song_b.level_hash := by
  constructor
  · exact level_hash_matches_declared_byte_stream.1 (fun l => String.mk l)
      (fun _ => "00000") [] hash_demo_folder hash_demo_song rfl
  · exact level_hash_matches_declared_byte_stream.2 (fun l => String.mk l)
      (fun _ => "00000") (fun _ => "abc12") [] [("q", "w")]
      hash_demo_folder hash_demo_folder hash_demo_song hash_demo_song_b
      rfl rfl rfl

/-- A root holding three valid folders whose display names are `Zeta`,
`alpha` and `Beta`, in that enumeration order. -/
def triplet_root : List RootEntry :=
  [.dir (valid_folder "/bs/z" "Zeta"), .dir (valid_folder "/bs/a" "alpha"),
   .dir (valid_folder "/bs/b" "Beta")]

/-- The byte/codepoint ordering is total. -/
theorem chars_le_total : ∀ xs ys : List Char,
    chars_le xs ys = true ∨ chars_le ys xs = true := by
  intro xs
  induction xs with
  | nil =>
    intro ys
    left
    rfl
  | cons c cs ih =>
    intro ys
    cases ys with
    | nil =>
      right
      rfl
    | cons d ds =>
      rcases lt_trichotomy c d with h | h | h
      · left
        simp [chars_le, h]
      · subst h
        rcases ih ds with h2 | h2
        · left
          simp [chars_le, lt_irrefl, h2]
        · right
          simp [chars_le, lt_irrefl, h2]
      · right
        simp [chars_le, h]

/-- The byte/codepoint ordering is transitive. -/
theorem chars_le_trans : ∀ xs ys zs : List Char,
    chars_le xs ys = true → chars_le ys zs = true → chars_le xs zs = true := by
  intro xs
  induction xs with
  | nil =>
    intro ys zs h1 h2
    rfl
  | cons a as ih =>
    intro ys zs h1 h2
    cases ys with
    | nil => simp [chars_le] at h1
    | cons b bs =>
      cases zs with
      | nil => simp [chars_le] at h2
      | cons c cs =>
        rcases lt_trichotomy a b with hab | hab | hab
        · rcases lt_trichotomy b c with hbc | hbc | hbc
          · simp [chars_le, lt_trans hab hbc]
          · subst hbc
            simp [chars_le, hab]
          · simp [chars_le, hbc, lt_asymm hbc] at h2
        · subst hab
          simp [chars_le, lt_irrefl] at h1
          rcases lt_trichotomy a c with hac | hac | hac
          · simp [chars_le, hac]
          · subst hac
            simp [chars_le, lt_irrefl] at h2 ⊢
            exact ih bs cs h1 h2
          · simp [chars_le, hac, lt_asymm hac] at h2
        · simp [chars_le, hab, lt_asymm hab] at h1

/-- C8: every scan's returned song list is sorted ascending by display name
under the codepoint (byte) ordering — produced by a stable sort — and on the
triplet `Zeta`, `alpha`, `Beta` the returned order is exactly `Beta`,
`Zeta`, `alpha` (capitals sort before lowercase; no case folding). -/
theorem song_list_sorted_by_name :
    (∀ (resolver : String → String) (digest : List Char → String)
        (root : Option (List RootEntry)) (cache0 : List (String × String)),
      List.Sorted (fun a b : Song => string_le a.song_name b.song_name = true)
        (generate_song_list resolver digest root cache0).songs) ∧
    ((generate_song_list (fun _ => "00000") (fun _ => "d")
        (some triplet_root) []).songs.map Song.song_name) =
      ["Beta", "Zeta", "alpha"] := by
  constructor
  · intro resolver digest root cache0
    cases root with
    | none => simp [generate_song_list]
    | some entries =>
      haveI : IsTrans Song
          (fun a b => string_le a.song_name b.song_name = true) :=
        ⟨fun _ _ _ hab hbc => chars_le_trans _ _ _ hab hbc⟩
      haveI : IsTotal Song
          (fun a b => string_le a.song_name b.song_name = true) :=
        ⟨fun _ _ => chars_le_total _ _⟩
      simpa [generate_song_list] using
        List.sorted_insertionSort
          (fun a b : Song => string_le a.song_name b.song_name = true) _
  · rfl

end BsSongManager
